import Mathlib

/-!
Shallow embedding of `generate.py`, the torture-test manifest generator of
h2c-testsuite, together with proofs of the specification claims.

The source is a pure text generator: `all_configmap_names` and
`all_service_fqdns` derive the global name sequences, `generate_release`
assembles one release's manifest text, and `main` validates `n`, resolves the
output directory and writes one file per release.  Python string formatting
(`{x}`, `{x:03d}`, `{x:04d}`) is modelled by `natStr` / `padStr`, Python
`range` over (possibly negative) ints by `pyRange`, `"sep".join(xs)` by
`String.intercalate`, and `enumerate(xs)` by `List.enum`.  `main`'s side
effects (directory creation, file writes, stdout/stderr prints) are recorded
as an explicit effect trace.
-/

/-- The character for a single decimal digit `d` (`0 ≤ d ≤ 9` in use):
code point `48 + d`. -/
def digitChar (d : Nat) : Char := Char.ofNat (48 + d)

/-- Fuel-driven decimal rendering: prepend the decimal digits of `x` to
`acc`, most significant digit first.  The fuel is always sufficient when
called through `natChars`. -/
def natCharsAux : Nat → Nat → List Char → List Char
  | 0, _, acc => acc
  | fuel+1, x, acc =>
      if x < 10 then digitChar x :: acc
      else natCharsAux fuel (x / 10) (digitChar (x % 10) :: acc)

/-- The decimal digit characters of `x`, as Python's `str(x)` produces for a
nonnegative int (in particular `natChars 0 = ['0']`). -/
def natChars (x : Nat) : List Char := natCharsAux (x + 1) x []

/-- Python `f"{x}"` for a nonnegative int `x`. -/
def natStr (x : Nat) : String := String.mk (natChars x)

/-- The digit characters of Python `f"{x:0wd}"` for nonnegative `x`: the
decimal digits of `x`, left-padded with `'0'` to width at least `w`. -/
def padChars (w x : Nat) : List Char :=
  List.replicate (w - (natChars x).length) '0' ++ natChars x

/-- Python `f"{x:0wd}"` for a nonnegative int `x`. -/
def padStr (w x : Nat) : String := String.mk (padChars w x)

/-- Python `f"{x}"` for an arbitrary int `x`. -/
def intStr (x : Int) : String :=
  if x < 0 then "-" ++ natStr (-x).toNat else natStr x.toNat

/-- Python `range(n)` over an int `n`: `[0, 1, ..., n-1]`, empty when
`n ≤ 0` (no error is raised on nonpositive input). -/
def pyRange (n : Int) : List Int := (List.range n.toNat).map Int.ofNat

/-- The configmap name `f"r{r:03d}-config-{i:03d}"` built by
`all_configmap_names`. -/
def cmName (r i : Nat) : String :=
  "r" ++ padStr 3 r ++ "-config-" ++ padStr 3 i

/-- The service FQDN `f"r{r:03d}-app-{i:03d}.default.svc.cluster.local"`
built by `all_service_fqdns`. -/
def fqdnName (r i : Nat) : String :=
  "r" ++ padStr 3 r ++ "-app-" ++ padStr 3 i ++ ".default.svc.cluster.local"

/-- `all_configmap_names(n)`: all n² configmap names across all releases,
release index major, per-release index minor. -/
def all_configmap_names (n : Int) : List String :=
  (pyRange n).flatMap (fun r => (pyRange n).map (fun i => cmName r.toNat i.toNat))

/-- `all_service_fqdns(n)`: all n² service FQDNs across all releases. -/
def all_service_fqdns (n : Int) : List String :=
  (pyRange n).flatMap (fun r => (pyRange n).map (fun i => fqdnName r.toNat i.toNat))

/-- The release name prefix `f"r{release_idx:03d}"` bound to `prefix` at the
top of `generate_release`. -/
def relPfx (release_idx : Nat) : String := "r" ++ padStr 3 release_idx

/-- One ConfigMap document of `generate_release`. -/
def configMapDoc (release_idx i : Nat) : String :=
  "apiVersion: v1\n" ++
  "kind: ConfigMap\n" ++
  "metadata:\n" ++
  "  name: " ++ relPfx release_idx ++ "-config-" ++ padStr 3 i ++ "\n" ++
  "  namespace: default\n" ++
  "data:\n" ++
  "  SETTING_A: \"value-a-" ++ natStr release_idx ++ "-" ++ natStr i ++ "\"\n" ++
  "  SETTING_B: \"value-b-" ++ natStr release_idx ++ "-" ++ natStr i ++ "\"\n" ++
  "  config.yaml: |\n" ++
  "    key: release-" ++ natStr release_idx ++ "-cm-" ++ natStr i ++ "\n"

/-- One Secret document of `generate_release`. -/
def secretDoc (release_idx i : Nat) : String :=
  "apiVersion: v1\n" ++
  "kind: Secret\n" ++
  "metadata:\n" ++
  "  name: " ++ relPfx release_idx ++ "-secret-" ++ padStr 3 i ++ "\n" ++
  "  namespace: default\n" ++
  "type: Opaque\n" ++
  "data:\n" ++
  "  password: cGFzc3dvcmQ=\n" ++
  "  token: dG9rZW4xMjM=\n"

/-- The volumeMount entries of one Deployment: one per index of `cm_names`
(the `for idx in range(len(cm_names))` generator inside `generate_release`). -/
def volume_mounts_entries (cm_names : List String) : List String :=
  (List.range cm_names.length).map (fun idx =>
    "            - name: cm-" ++ padStr 4 idx ++ "\n" ++
    "              mountPath: /etc/config/" ++ padStr 4 idx ++ "\n" ++
    "              readOnly: true")

/-- The volume entries of one Deployment: one per `(idx, name)` of
`enumerate(cm_names)`, binding volume `cm-{idx:04d}` to configmap `name`. -/
def volumes_entries (cm_names : List String) : List String :=
  cm_names.enum.map (fun p =>
    "        - name: cm-" ++ padStr 4 p.1 ++ "\n" ++
    "          configMap:\n" ++
    "            name: " ++ p.2)

/-- The env-var entries of one Deployment: one per `(idx, fqdn)` of
`enumerate(fqdns)`. -/
def env_vars_entries (fqdns : List String) : List String :=
  fqdns.enum.map (fun p =>
    "            - name: SVC_" ++ padStr 4 p.1 ++ "\n" ++
    "              value: \"http://" ++ p.2 ++ ":8080/api\"")

/-- The envFrom entries of one Deployment: one secretRef per Secret of the
deployment's own release (`for j in range(n)`). -/
def env_from_entries (release_idx n : Nat) : List String :=
  (List.range n).map (fun j =>
    "            - secretRef:\n" ++
    "                name: " ++ relPfx release_idx ++ "-secret-" ++ padStr 3 j)

/-- One Deployment document of `generate_release`. -/
def deploymentDoc (release_idx n i : Nat) (cm_names fqdns : List String) : String :=
  "apiVersion: apps/v1\n" ++
  "kind: Deployment\n" ++
  "metadata:\n" ++
  "  name: " ++ relPfx release_idx ++ "-app-" ++ padStr 3 i ++ "\n" ++
  "  namespace: default\n" ++
  "  labels:\n" ++
  "    app: " ++ relPfx release_idx ++ "-app-" ++ padStr 3 i ++ "\n" ++
  "spec:\n" ++
  "  replicas: 1\n" ++
  "  selector:\n" ++
  "    matchLabels:\n" ++
  "      app: " ++ relPfx release_idx ++ "-app-" ++ padStr 3 i ++ "\n" ++
  "  template:\n" ++
  "    metadata:\n" ++
  "      labels:\n" ++
  "        app: " ++ relPfx release_idx ++ "-app-" ++ padStr 3 i ++ "\n" ++
  "    spec:\n" ++
  "      initContainers:\n" ++
  "        - name: init\n" ++
  "          image: busybox:1.36\n" ++
  "          command: ['sh', '-c', 'echo init-" ++ relPfx release_idx ++ "-" ++ natStr i ++ "']\n" ++
  "      containers:\n" ++
  "        - name: main\n" ++
  "          image: nginx:1.27-alpine\n" ++
  "          ports:\n" ++
  "            - containerPort: 8080\n" ++
  "          env:\n" ++
  String.intercalate "\n" (env_vars_entries fqdns) ++ "\n" ++
  "          envFrom:\n" ++
  String.intercalate "\n" (env_from_entries release_idx n) ++ "\n" ++
  "          volumeMounts:\n" ++
  String.intercalate "\n" (volume_mounts_entries cm_names) ++ "\n" ++
  "        - name: sidecar\n" ++
  "          image: busybox:1.36\n" ++
  "          command: ['sh', '-c', 'sleep infinity']\n" ++
  "      volumes:\n" ++
  String.intercalate "\n" (volumes_entries cm_names) ++ "\n"

/-- One Service document of `generate_release`. -/
def serviceDoc (release_idx i : Nat) : String :=
  "apiVersion: v1\n" ++
  "kind: Service\n" ++
  "metadata:\n" ++
  "  name: " ++ relPfx release_idx ++ "-app-" ++ padStr 3 i ++ "\n" ++
  "  namespace: default\n" ++
  "spec:\n" ++
  "  type: ClusterIP\n" ++
  "  ports:\n" ++
  "    - port: 8080\n" ++
  "      targetPort: 8080\n" ++
  "  selector:\n" ++
  "    app: " ++ relPfx release_idx ++ "-app-" ++ padStr 3 i ++ "\n"

/-- One HTTP path entry of the Ingress document, routing `/svc-{i:03d}` to
the Service `{prefix}-app-{i:03d}` at port 8080. -/
def ingressPathEntry (release_idx i : Nat) : String :=
  "          - path: /svc-" ++ padStr 3 i ++ "\n" ++
  "            pathType: Prefix\n" ++
  "            backend:\n" ++
  "              service:\n" ++
  "                name: " ++ relPfx release_idx ++ "-app-" ++ padStr 3 i ++ "\n" ++
  "                port:\n" ++
  "                  number: 8080"

/-- The path entries of the Ingress document (`for i in range(n)`). -/
def ingressPathsList (release_idx n : Nat) : List String :=
  (List.range n).map (ingressPathEntry release_idx)

/-- The single Ingress document of `generate_release`. -/
def ingressDoc (release_idx n : Nat) : String :=
  "apiVersion: networking.k8s.io/v1\n" ++
  "kind: Ingress\n" ++
  "metadata:\n" ++
  "  name: " ++ relPfx release_idx ++ "-ingress\n" ++
  "  namespace: default\n" ++
  "  annotations:\n" ++
  "    kubernetes.io/ingress.class: haproxy\n" ++
  "spec:\n" ++
  "  rules:\n" ++
  "    - host: " ++ relPfx release_idx ++ ".example.com\n" ++
  "      http:\n" ++
  "        paths:\n" ++
  String.intercalate "\n" (ingressPathsList release_idx n) ++ "\n"

/-- The `docs` list that `generate_release` appends to, in emission order:
n ConfigMaps, n Secrets, n Deployments, n Services, 1 Ingress. -/
def releaseDocs (release_idx n : Nat) (cm_names fqdns : List String) : List String :=
  (List.range n).map (configMapDoc release_idx) ++
  (List.range n).map (secretDoc release_idx) ++
  (List.range n).map (fun i => deploymentDoc release_idx n i cm_names fqdns) ++
  (List.range n).map (serviceDoc release_idx) ++
  [ingressDoc release_idx n]

/-- `generate_release(release_idx, n, cm_names, fqdns)`: the whole manifest
text of one release, i.e. `"---\n".join(docs)`. -/
def generate_release (release_idx n : Nat) (cm_names fqdns : List String) : String :=
  String.intercalate "---\n" (releaseDocs release_idx n cm_names fqdns)

/-- One observable side effect of `main`: directory creation, file write, or
a print to stdout/stderr. -/
inductive Effect where
  | mkdirs : String → Effect
  | writeFile : String → String → Effect
  | printOut : String → Effect
  | printErr : String → Effect
deriving DecidableEq, Repr

/-- The per-release body of `main`'s write loop: create the release
directory, then write that release's manifest file. -/
def releaseWriteEffects (output : String) (n : Nat) (cm_names fqdns : List String)
    (release_idx : Nat) : List Effect :=
  [Effect.mkdirs (output ++ "/release-" ++ padStr 3 release_idx),
   Effect.writeFile (output ++ "/release-" ++ padStr 3 release_idx ++ "/manifests.yaml")
     (generate_release release_idx n cm_names fqdns)]

/-- `main()` after argument parsing: given the parsed scale `n` and optional
`--output`, return the process exit status and the ordered trace of
side effects.  When `n < 1` it prints the diagnostic to stderr and exits
with status 1 before any directory or file is touched. -/
def mainFn (n : Int) (output_opt : Option String) : Int × List Effect :=
  if n < 1 then
    (1, [Effect.printErr "Error: n must be >= 1"])
  else
    let output :=
      match output_opt with
      | some s => if s = "" then "/tmp/h2c-torture-" ++ intStr n ++ "/manifests" else s
      | none => "/tmp/h2c-torture-" ++ intStr n ++ "/manifests"
    let total_deploy := n * n
    let total_cm := n * n
    let total_mounts := total_deploy * total_cm
    let total_env_rewrites := total_deploy * total_deploy
    let cm_names := all_configmap_names n
    let fqdns := all_service_fqdns n
    (0,
      [Effect.mkdirs output,
       Effect.printOut ("Generating torture test: n=" ++ intStr n),
       Effect.printOut ("  " ++ intStr total_deploy ++ " deployments, " ++ intStr total_cm ++
         " configmaps, " ++ intStr total_deploy ++ " services"),
       Effect.printOut ("  " ++ intStr total_mounts ++ " configmap mount resolutions (n⁴)"),
       Effect.printOut ("  " ++ intStr total_env_rewrites ++ " env FQDN rewrites (n⁴)"),
       Effect.printOut ("  Output: " ++ output)] ++
      (pyRange n).flatMap (fun r => releaseWriteEffects output n.toNat cm_names fqdns r.toNat) ++
      [Effect.printOut ("Done. " ++ intStr n ++ " release directories written to " ++ output)])

/-! ### Decimal rendering: correctness of `natChars` and `padChars` -/

/-- Decode a digit string back to the number it denotes (most significant
digit first); a left inverse of the decimal renderings above. -/
def decodeNat (cs : List Char) : Nat :=
  cs.foldl (fun a c => a * 10 + (c.toNat - 48)) 0

theorem digitChar_toNat {d : Nat} (hd : d < 10) : (digitChar d).toNat = 48 + d := by
  interval_cases d <;> rfl

theorem digitChar_isDigit {d : Nat} (hd : d < 10) : (digitChar d).isDigit = true := by
  interval_cases d <;> rfl

theorem natCharsAux_eq_digits :
    ∀ (fuel x : Nat) (acc : List Char), x < 10 ^ fuel → 0 < x →
      natCharsAux fuel x acc = ((Nat.digits 10 x).map digitChar).reverse ++ acc := by
  intro fuel
  induction fuel with
  | zero => intro x acc hx hpos; omega
  | succ fuel ih =>
      intro x acc hx hpos
      rw [natCharsAux]
      by_cases h10 : x < 10
      · rw [if_pos h10]
        rw [Nat.digits_def' (by norm_num) hpos]
        rw [Nat.mod_eq_of_lt h10, Nat.div_eq_of_lt h10]
        simp
      · rw [if_neg h10]
        have hdivpos : 0 < x / 10 := Nat.div_pos (by omega) (by norm_num)
        have hdivlt : x / 10 < 10 ^ fuel := by
          rw [Nat.div_lt_iff_lt_mul (by norm_num)]
          calc x < 10 ^ (fuel + 1) := hx
            _ = 10 ^ fuel * 10 := by ring
        rw [ih (x / 10) _ hdivlt hdivpos]
        rw [Nat.digits_def' (b := 10) (by norm_num) hpos]
        simp

theorem natChars_eq_digits (x : Nat) (hpos : 0 < x) :
    natChars x = ((Nat.digits 10 x).map digitChar).reverse := by
  have hx : x < 10 ^ (x + 1) :=
    lt_of_lt_of_le (Nat.lt_pow_self (by norm_num) x) (Nat.pow_le_pow_right (by norm_num) (by omega))
  simpa using natCharsAux_eq_digits (x + 1) x [] hx hpos

theorem mem_natChars_isDigit {x : Nat} {c : Char} (hc : c ∈ natChars x) : c.isDigit = true := by
  rcases Nat.eq_zero_or_pos x with h0 | hpos
  · subst h0
    have : c = '0' := by simpa [natChars, natCharsAux] using hc
    subst this; rfl
  · rw [natChars_eq_digits x hpos] at hc
    rw [List.mem_reverse, List.mem_map] at hc
    obtain ⟨d, hd, rfl⟩ := hc
    exact digitChar_isDigit (Nat.digits_lt_base (by norm_num) hd)

theorem mem_padChars_isDigit {w x : Nat} {c : Char} (hc : c ∈ padChars w x) : c.isDigit = true := by
  rcases List.mem_append.1 hc with h | h
  · rw [List.eq_of_mem_replicate h]; rfl
  · exact mem_natChars_isDigit h

theorem foldr_decode_eq_ofDigits :
    ∀ L : List Nat, (∀ d ∈ L, d < 10) →
      L.foldr (fun d a => a * 10 + ((digitChar d).toNat - 48)) 0 = Nat.ofDigits 10 L := by
  intro L
  induction L with
  | nil => intro _; simp [Nat.ofDigits_nil]
  | cons d L ih =>
      intro h
      have hd : d < 10 := h d (List.mem_cons_self d L)
      have hL : ∀ e ∈ L, e < 10 := fun e he => h e (List.mem_cons_of_mem d he)
      rw [List.foldr_cons, ih hL, digitChar_toNat hd, Nat.ofDigits_cons]
      omega

theorem decodeNat_natChars (x : Nat) : decodeNat (natChars x) = x := by
  rcases Nat.eq_zero_or_pos x with h0 | hpos
  · subst h0; rfl
  · rw [natChars_eq_digits x hpos]
    unfold decodeNat
    rw [List.foldl_reverse, List.foldr_map]
    have := foldr_decode_eq_ofDigits (Nat.digits 10 x)
      (fun d hd => Nat.digits_lt_base (by norm_num) hd)
    simpa [this] using Nat.ofDigits_digits 10 x

theorem foldl_decode_replicate_zero (k : Nat) :
    List.foldl (fun a c => a * 10 + (c.toNat - 48)) 0 (List.replicate k '0') = 0 := by
  induction k with
  | zero => rfl
  | succ k ih => simpa [List.replicate_succ] using ih

theorem decodeNat_padChars (w x : Nat) : decodeNat (padChars w x) = x := by
  unfold decodeNat padChars
  rw [List.foldl_append, foldl_decode_replicate_zero]
  exact decodeNat_natChars x

theorem padStr_inj {w x y : Nat} (h : padStr w x = padStr w y) : x = y := by
  have hd : padChars w x = padChars w y := congrArg String.data h
  calc x = decodeNat (padChars w x) := (decodeNat_padChars w x).symm
    _ = decodeNat (padChars w y) := by rw [hd]
    _ = y := decodeNat_padChars w y

/-! ### Recovering `(r, i)` from a generated name -/

theorem takeWhile_all_append {p : Char → Bool} :
    ∀ (l₁ : List Char) (c : Char) (l₂ : List Char), (∀ a ∈ l₁, p a = true) → p c = false →
      (l₁ ++ c :: l₂).takeWhile p = l₁ := by
  intro l₁
  induction l₁ with
  | nil => intro c l₂ _ hc; simp [List.takeWhile_cons, hc]
  | cons a l₁ ih =>
      intro c l₂ h hc
      have ha : p a = true := h a (List.mem_cons_self a l₁)
      simp only [List.cons_append, List.takeWhile_cons, ha, if_true]
      rw [ih c l₂ (fun b hb => h b (List.mem_cons_of_mem a hb)) hc]

theorem dropWhile_all_append {p : Char → Bool} :
    ∀ (l₁ : List Char) (c : Char) (l₂ : List Char), (∀ a ∈ l₁, p a = true) → p c = false →
      (l₁ ++ c :: l₂).dropWhile p = c :: l₂ := by
  intro l₁
  induction l₁ with
  | nil => intro c l₂ _ hc; simp [List.dropWhile_cons, hc]
  | cons a l₁ ih =>
      intro c l₂ h hc
      have ha : p a = true := h a (List.mem_cons_self a l₁)
      simp only [List.cons_append, List.dropWhile_cons, ha, if_true]
      exact ih c l₂ (fun b hb => h b (List.mem_cons_of_mem a hb)) hc

/-- Recover the `(r, i)` pair encoded in a configmap name
`r{r:03d}-config-{i:03d}`: the digit run after the leading `'r'`, and the
digit run after the `"-config-"` separator. -/
def cmParse (s : String) : Nat × Nat :=
  let t := s.data.drop 1
  (decodeNat (t.takeWhile Char.isDigit),
   decodeNat ((t.dropWhile Char.isDigit).drop 8))

/-- Recover the `(r, i)` pair encoded in a service FQDN
`r{r:03d}-app-{i:03d}.default.svc.cluster.local`. -/
def fqdnParse (s : String) : Nat × Nat :=
  let t := s.data.drop 1
  (decodeNat (t.takeWhile Char.isDigit),
   decodeNat ((((t.dropWhile Char.isDigit).drop 5).takeWhile Char.isDigit)))

theorem cmName_data (r i : Nat) :
    (cmName r i).data =
      'r' :: (padChars 3 r ++ '-' :: ('c' :: 'o' :: 'n' :: 'f' :: 'i' :: 'g' :: '-' :: padChars 3 i)) := by
  show ("r" ++ padStr 3 r ++ "-config-" ++ padStr 3 i).data = _
  simp [String.data_append, padStr]

theorem fqdnName_data (r i : Nat) :
    (fqdnName r i).data =
      'r' :: (padChars 3 r ++ '-' :: ('a' :: 'p' :: 'p' :: '-' ::
        (padChars 3 i ++ '.' :: ".default.svc.cluster.local".data.tail))) := by
  show ("r" ++ padStr 3 r ++ "-app-" ++ padStr 3 i ++ ".default.svc.cluster.local").data = _
  simp [String.data_append, padStr]

theorem cmParse_cmName (r i : Nat) : cmParse (cmName r i) = (r, i) := by
  unfold cmParse
  rw [cmName_data]
  simp only [List.drop_succ_cons, List.drop_zero]
  rw [takeWhile_all_append (padChars 3 r) '-' _ (fun a ha => mem_padChars_isDigit ha) (by rfl)]
  rw [dropWhile_all_append (padChars 3 r) '-' _ (fun a ha => mem_padChars_isDigit ha) (by rfl)]
  simp [decodeNat_padChars]

theorem fqdnParse_fqdnName (r i : Nat) : fqdnParse (fqdnName r i) = (r, i) := by
  unfold fqdnParse
  rw [fqdnName_data]
  simp only [List.drop_succ_cons, List.drop_zero]
  rw [takeWhile_all_append (padChars 3 r) '-' _ (fun a ha => mem_padChars_isDigit ha) (by rfl)]
  rw [dropWhile_all_append (padChars 3 r) '-' _ (fun a ha => mem_padChars_isDigit ha) (by rfl)]
  simp only [List.drop_succ_cons, List.drop_zero]
  rw [takeWhile_all_append (padChars 3 i) '.' _ (fun a ha => mem_padChars_isDigit ha) (by rfl)]
  simp [decodeNat_padChars]

theorem cmName_inj_iff (r i r' i' : Nat) : cmName r i = cmName r' i' ↔ r = r' ∧ i = i' := by
  constructor
  · intro h
    have := congrArg cmParse h
    rw [cmParse_cmName, cmParse_cmName] at this
    exact ⟨congrArg Prod.fst this, congrArg Prod.snd this⟩
  · rintro ⟨rfl, rfl⟩; rfl

theorem fqdnName_inj_iff (r i r' i' : Nat) : fqdnName r i = fqdnName r' i' ↔ r = r' ∧ i = i' := by
  constructor
  · intro h
    have := congrArg fqdnParse h
    rw [fqdnParse_fqdnName, fqdnParse_fqdnName] at this
    exact ⟨congrArg Prod.fst this, congrArg Prod.snd this⟩
  · rintro ⟨rfl, rfl⟩; rfl

/-! ### Indexing the flattened release-major name sequences -/

theorem flatMap_range_length {α : Type} (g : Nat → List α) (m : Nat) :
    ∀ k : Nat, (∀ r, (g r).length = m) → ((List.range k).flatMap g).length = k * m := by
  intro k
  induction k with
  | zero => intro _; simp
  | succ k ih =>
      intro h
      rw [List.range_succ, List.flatMap_append, List.length_append, ih h]
      simp [h, Nat.succ_mul]

theorem flatMap_range_getElem? {α : Type} (g : Nat → List α) (m : Nat) :
    ∀ (k r i : Nat), (∀ r, (g r).length = m) → r < k → i < m →
      ((List.range k).flatMap g)[r * m + i]? = (g r)[i]? := by
  intro k
  induction k with
  | zero => intro r i _ hr _; omega
  | succ k ih =>
      intro r i hg hr hi
      rw [List.range_succ, List.flatMap_append]
      by_cases hrk : r < k
      · rw [List.getElem?_append_left, ih r i hg hrk hi]
        rw [flatMap_range_length g m k hg]
        calc r * m + i < r * m + m := by omega
          _ ≤ k * m := by
              have : r + 1 ≤ k := hrk
              calc r * m + m = (r + 1) * m := by ring
                _ ≤ k * m := Nat.mul_le_mul_right m this
      · have hrk' : r = k := by omega
        subst hrk'
        have hlen : ((List.range r).flatMap g).length = r * m := flatMap_range_length g m r hg
        rw [List.getElem?_append_right (by rw [hlen]; omega)]
        rw [hlen]
        simp [Nat.add_sub_cancel_left]

theorem all_configmap_names_eq (n : Int) :
    all_configmap_names n =
      (List.range n.toNat).flatMap (fun r => (List.range n.toNat).map (fun i => cmName r i)) := by
  unfold all_configmap_names pyRange
  rw [List.flatMap_map]
  congr 1
  funext r
  rw [List.map_map]
  simp [Function.comp]

theorem all_service_fqdns_eq (n : Int) :
    all_service_fqdns n =
      (List.range n.toNat).flatMap (fun r => (List.range n.toNat).map (fun i => fqdnName r i)) := by
  unfold all_service_fqdns pyRange
  rw [List.flatMap_map]
  congr 1
  funext r
  rw [List.map_map]
  simp [Function.comp]

theorem all_configmap_names_length (n : Nat) :
    (all_configmap_names (n : Int)).length = n * n := by
  rw [all_configmap_names_eq]
  simp only [Int.toNat_ofNat]
  exact flatMap_range_length _ n n (fun r => by simp)

theorem all_service_fqdns_length (n : Nat) :
    (all_service_fqdns (n : Int)).length = n * n := by
  rw [all_service_fqdns_eq]
  simp only [Int.toNat_ofNat]
  exact flatMap_range_length _ n n (fun r => by simp)

theorem all_configmap_names_getElem? (n r i : Nat) (hr : r < n) (hi : i < n) :
    (all_configmap_names (n : Int))[r * n + i]? = some (cmName r i) := by
  rw [all_configmap_names_eq]
  simp only [Int.toNat_ofNat]
  rw [flatMap_range_getElem? _ n n r i (fun r => by simp) hr hi]
  simp [List.getElem?_map, List.getElem?_range, hi]

theorem all_service_fqdns_getElem? (n r i : Nat) (hr : r < n) (hi : i < n) :
    (all_service_fqdns (n : Int))[r * n + i]? = some (fqdnName r i) := by
  rw [all_service_fqdns_eq]
  simp only [Int.toNat_ofNat]
  rw [flatMap_range_getElem? _ n n r i (fun r => by simp) hr hi]
  simp [List.getElem?_map, List.getElem?_range, hi]

/-! ### Claim C3: name derivation -/

/-- **C3.** For every `n ≥ 1`, `all_configmap_names(n)` and
`all_service_fqdns(n)` each return exactly `n²` elements, release-index
major and per-release index minor, and the element at position `r*n + i`
is `r{r:03d}-config-{i:03d}` (resp.
`r{r:03d}-app-{i:03d}.default.svc.cluster.local`). -/
theorem C3_name_derivation (n r i : Nat) (_hn : 1 ≤ n) (hr : r < n) (hi : i < n) :
    (all_configmap_names (n : Int)).length = n * n ∧
    (all_service_fqdns (n : Int)).length = n * n ∧
    (all_configmap_names (n : Int))[r * n + i]? =
      some ("r" ++ padStr 3 r ++ "-config-" ++ padStr 3 i) ∧
    (all_service_fqdns (n : Int))[r * n + i]? =
      some ("r" ++ padStr 3 r ++ "-app-" ++ padStr 3 i ++ ".default.svc.cluster.local") :=
  ⟨all_configmap_names_length n, all_service_fqdns_length n,
   all_configmap_names_getElem? n r i hr hi, all_service_fqdns_getElem? n r i hr hi⟩

/-- Concrete instance of `C3_name_derivation` at `n = 2`, `r = 1`, `i = 0`. -/
theorem C3_name_derivation_witness :
    1 ≤ 2 ∧ 1 < 2 ∧ 0 < 2 ∧
      ((all_configmap_names ((2 : Nat) : Int)).length = 2 * 2 ∧
       (all_service_fqdns ((2 : Nat) : Int)).length = 2 * 2 ∧
       (all_configmap_names ((2 : Nat) : Int))[1 * 2 + 0]? =
         some ("r" ++ padStr 3 1 ++ "-config-" ++ padStr 3 0) ∧
       (all_service_fqdns ((2 : Nat) : Int))[1 * 2 + 0]? =
         some ("r" ++ padStr 3 1 ++ "-app-" ++ padStr 3 0 ++ ".default.svc.cluster.local")) :=
  ⟨by decide, by decide, by decide,
   C3_name_derivation 2 1 0 (by decide) (by decide) (by decide)⟩

/-! ### Claim C7: injective naming -/

theorem flatMap_names_nodup (f : Nat → Nat → String)
    (hf : ∀ r i r' i' : Nat, f r i = f r' i' ↔ r = r' ∧ i = i') (m : Nat) :
    ((List.range m).flatMap (fun r => (List.range m).map (fun i => f r i))).Nodup := by
  rw [List.nodup_flatMap]
  constructor
  · intro r _
    refine List.Nodup.map ?_ (List.nodup_range m)
    intro a b h
    exact ((hf r a r b).1 h).2
  · refine List.Pairwise.imp ?_ (List.pairwise_lt_range m)
    intro a b hab x hxa hxb
    rw [List.mem_map] at hxa hxb
    obtain ⟨i, _, rfl⟩ := hxa
    obtain ⟨j, _, heq⟩ := hxb
    exact absurd ((hf b j a i).1 heq).1 (by omega)

/-- **C7.** The naming scheme is injective: distinct `(r, i)` pairs always
produce distinct configmap names and distinct FQDNs, for all naturals —
including beyond the `{:03d}` padding width — and consequently
`all_configmap_names` and `all_service_fqdns` contain no duplicates for any
scale. -/
theorem C7_naming_injective :
    (∀ r i r' i' : Nat, cmName r i = cmName r' i' ↔ r = r' ∧ i = i') ∧
    (∀ r i r' i' : Nat, fqdnName r i = fqdnName r' i' ↔ r = r' ∧ i = i') ∧
    (∀ n : Int, (all_configmap_names n).Nodup ∧ (all_service_fqdns n).Nodup) := by
  refine ⟨cmName_inj_iff, fqdnName_inj_iff, fun n => ⟨?_, ?_⟩⟩
  · rw [all_configmap_names_eq]
    exact flatMap_names_nodup cmName cmName_inj_iff n.toNat
  · rw [all_service_fqdns_eq]
    exact flatMap_names_nodup fqdnName fqdnName_inj_iff n.toNat

/-! ### Claim C10: totality of the name functions on nonpositive scales -/

/-- **C10.** For every integer `n ≤ 0`, `all_configmap_names(n)` and
`all_service_fqdns(n)` raise no error and return the empty list; rejection
of invalid `n` happens only in `main`. -/
theorem C10_nonpositive_empty (n : Int) (h : n ≤ 0) :
    all_configmap_names n = [] ∧ all_service_fqdns n = [] := by
  have h0 : n.toNat = 0 := Int.toNat_of_nonpos h
  constructor <;> simp [all_configmap_names, all_service_fqdns, pyRange, h0]

/-- Concrete instance of `C10_nonpositive_empty` at `n = -1`. -/
theorem C10_nonpositive_empty_witness :
    (-1 : Int) ≤ 0 ∧ (all_configmap_names (-1) = [] ∧ all_service_fqdns (-1) = []) :=
  ⟨by decide, C10_nonpositive_empty (-1) (by decide)⟩

/-! ### Claim C9: rejection of invalid scales -/

/-- **C9.** For every integer `n < 1`, `main` prints the diagnostic to the
error stream and exits with status 1; the effect trace contains no
directory creation and no file write. -/
theorem C9_invalid_n_rejected (n : Int) (out : Option String) (h : n < 1) :
    (mainFn n out).1 = 1 ∧
    (mainFn n out).2 = [Effect.printErr "Error: n must be >= 1"] ∧
    ∀ e ∈ (mainFn n out).2,
      (∀ p, e ≠ Effect.mkdirs p) ∧ (∀ p c, e ≠ Effect.writeFile p c) := by
  refine ⟨?_, ?_, ?_⟩
  · simp [mainFn, h]
  · simp [mainFn, h]
  · intro e he
    rw [show mainFn n out = (1, [Effect.printErr "Error: n must be >= 1"]) by simp [mainFn, h]] at he
    simp only [List.mem_singleton] at he
    subst he
    exact ⟨fun p => by simp, fun p c => by simp⟩

/-- Concrete instance of `C9_invalid_n_rejected` at `n = 0` with no
`--output` flag. -/
theorem C9_invalid_n_rejected_witness :
    (0 : Int) < 1 ∧
      ((mainFn 0 none).1 = 1 ∧
       (mainFn 0 none).2 = [Effect.printErr "Error: n must be >= 1"] ∧
       ∀ e ∈ (mainFn 0 none).2,
         (∀ p, e ≠ Effect.mkdirs p) ∧ (∀ p c, e ≠ Effect.writeFile p c)) :=
  ⟨by decide, C9_invalid_n_rejected 0 none (by decide)⟩

/-! ### Claim C6: determinism of the corpus -/

/-- The whole generation pipeline as a function of the scale alone: the
global name lists are computed once and every release's text is generated
from them, exactly as `main` does. -/
def corpus (n : Nat) : List String :=
  (List.range n).map
    (fun r => generate_release r n (all_configmap_names n) (all_service_fqdns n))

/-- **C6.** The corpus is a deterministic function of `n` alone: two
evaluations of the pipeline at the same scale yield byte-identical text for
every release.  In this embedding the whole pipeline is a pure function, so
determinism is Leibniz equality of `corpus` at equal scales. -/
theorem C6_deterministic (n₁ n₂ : Nat) (h : n₁ = n₂) : corpus n₁ = corpus n₂ :=
  congrArg corpus h

/-- Concrete instance of `C6_deterministic` at `n = 2`. -/
theorem C6_deterministic_witness : 2 = 2 ∧ corpus 2 = corpus 2 :=
  ⟨rfl, C6_deterministic 2 2 rfl⟩

/-! ### Claim C8: `generate_release` leaves its list arguments unchanged -/

/-- The write loop of `main`, with the two global name lists threaded as
explicit state through every iteration: each iteration computes one
release's text from the current lists; the loop body contains no statement
that rebinds or mutates them. -/
def releaseLoop (n : Nat) :
    List Nat → List String → List String → (List String × List String) × List String
  | [], cm_names, fqdns => ((cm_names, fqdns), [])
  | r :: rest, cm_names, fqdns =>
      let content := generate_release r n cm_names fqdns
      let res := releaseLoop n rest cm_names fqdns
      (res.1, content :: res.2)

/-- **C8.** Running the release loop leaves `cm_names` and `fqdns` exactly
as they were, and every release's output is computed from the original
lists — so all releases see identical cross-reference sets. -/
theorem C8_frame (n : Nat) (rs : List Nat) (cm_names fqdns : List String) :
    (releaseLoop n rs cm_names fqdns).1 = (cm_names, fqdns) ∧
    (releaseLoop n rs cm_names fqdns).2 =
      rs.map (fun r => generate_release r n cm_names fqdns) := by
  induction rs with
  | nil => exact ⟨rfl, rfl⟩
  | cons r rest ih => simp [releaseLoop, ih.1, ih.2]

/-! ### Indexing the per-deployment entry lists -/

theorem volume_mounts_entries_getElem? (cm_names : List String) (idx : Nat)
    (h : idx < cm_names.length) :
    (volume_mounts_entries cm_names)[idx]? =
      some ("            - name: cm-" ++ padStr 4 idx ++ "\n" ++
        "              mountPath: /etc/config/" ++ padStr 4 idx ++ "\n" ++
        "              readOnly: true") := by
  simp [volume_mounts_entries, List.getElem?_map, List.getElem?_range, h]

theorem volumes_entries_getElem? (cm_names : List String) (idx : Nat) :
    (volumes_entries cm_names)[idx]? =
      cm_names[idx]?.map (fun nm =>
        "        - name: cm-" ++ padStr 4 idx ++ "\n" ++
        "          configMap:\n" ++
        "            name: " ++ nm) := by
  unfold volumes_entries
  rw [List.getElem?_map, List.getElem?_enum]
  cases cm_names[idx]? <;> rfl

theorem env_vars_entries_getElem? (fqdns : List String) (idx : Nat) :
    (env_vars_entries fqdns)[idx]? =
      fqdns[idx]?.map (fun fq =>
        "            - name: SVC_" ++ padStr 4 idx ++ "\n" ++
        "              value: \"http://" ++ fq ++ ":8080/api\"") := by
  unfold env_vars_entries
  rw [List.getElem?_map, List.getElem?_enum]
  cases fqdns[idx]? <;> rfl

/-! ### Claim C2: per-deployment cross-reference counts -/

/-- **C2.** For every `n ≥ 1`, each Deployment contains exactly `n²`
volumeMount entries, exactly `n²` volume entries, and exactly `n²`
environment variables `SVC_{idx:04d}` whose values embed the service
FQDNs — all three counts equal. -/
theorem C2_deployment_counts (n : Nat) (_hn : 1 ≤ n) :
    (volume_mounts_entries (all_configmap_names n)).length = n * n ∧
    (volumes_entries (all_configmap_names n)).length = n * n ∧
    (env_vars_entries (all_service_fqdns n)).length = n * n ∧
    ∀ (idx : Nat) (fq : String), (all_service_fqdns (n : Int))[idx]? = some fq →
      (env_vars_entries (all_service_fqdns n))[idx]? =
        some ("            - name: SVC_" ++ padStr 4 idx ++ "\n" ++
          "              value: \"http://" ++ fq ++ ":8080/api\"") := by
  refine ⟨?_, ?_, ?_, ?_⟩
  · simp [volume_mounts_entries, all_configmap_names_length n]
  · simp [volumes_entries, all_configmap_names_length n]
  · simp [env_vars_entries, all_service_fqdns_length n]
  · intro idx fq hfq
    rw [env_vars_entries_getElem?, hfq]
    rfl

/-- Concrete instance of `C2_deployment_counts` at `n = 2`,
`idx = 3`, `fq = r001-app-001.default.svc.cluster.local`. -/
theorem C2_deployment_counts_witness :
    1 ≤ 2 ∧
      ((volume_mounts_entries (all_configmap_names 2)).length = 2 * 2 ∧
       (volumes_entries (all_configmap_names 2)).length = 2 * 2 ∧
       (env_vars_entries (all_service_fqdns 2)).length = 2 * 2 ∧
       ∀ (idx : Nat) (fq : String), (all_service_fqdns ((2 : Nat) : Int))[idx]? = some fq →
         (env_vars_entries (all_service_fqdns 2))[idx]? =
           some ("            - name: SVC_" ++ padStr 4 idx ++ "\n" ++
             "              value: \"http://" ++ fq ++ ":8080/api\"")) :=
  ⟨by decide, C2_deployment_counts 2 (by decide)⟩

/-! ### Claim C4: envFrom references stay within the own release -/

/-- **C4.** Each Deployment has exactly `n` envFrom secret references
(never `n²` as soon as `n ≥ 2`), and reference `j` names the Secret
`r{r:03d}-secret-{j:03d}` of the deployment's own release. -/
theorem C4_envfrom_own_release (n r : Nat) (_hn : 1 ≤ n) (_hr : r < n) :
    (env_from_entries r n).length = n ∧
    (2 ≤ n → (env_from_entries r n).length ≠ n * n) ∧
    ∀ j : Nat, j < n → (env_from_entries r n)[j]? =
      some ("            - secretRef:\n" ++
        "                name: " ++ relPfx r ++ "-secret-" ++ padStr 3 j) := by
  refine ⟨?_, ?_, ?_⟩
  · simp [env_from_entries]
  · intro h2
    simp only [env_from_entries, List.length_map, List.length_range]
    nlinarith
  · intro j hj
    simp [env_from_entries, List.getElem?_map, List.getElem?_range, hj]

/-- Concrete instance of `C4_envfrom_own_release` at `n = 2`, `r = 1`. -/
theorem C4_envfrom_own_release_witness :
    1 ≤ 2 ∧ 1 < 2 ∧
      ((env_from_entries 1 2).length = 2 ∧
       (2 ≤ 2 → (env_from_entries 1 2).length ≠ 2 * 2) ∧
       ∀ j : Nat, j < 2 → (env_from_entries 1 2)[j]? =
         some ("            - secretRef:\n" ++
           "                name: " ++ relPfx 1 ++ "-secret-" ++ padStr 3 j)) :=
  ⟨by decide, by decide, C4_envfrom_own_release 2 1 (by decide) (by decide)⟩

/-! ### Claim C5: document structure of one release -/

/-- **C5.** `generate_release` returns the `"---\n"`-separated concatenation
of exactly `4n + 1` documents, in order: `n` ConfigMaps, `n` Secrets, `n`
Deployments, `n` Services, then 1 Ingress whose rules contain exactly `n`
HTTP paths, path `i` routing `/svc-{i:03d}` to service
`r{r:03d}-app-{i:03d}`. -/
theorem C5_release_document_structure (n r : Nat) (_hn : 1 ≤ n) (_hr : r < n) :
    generate_release r n (all_configmap_names n) (all_service_fqdns n) =
      String.intercalate "---\n"
        (releaseDocs r n (all_configmap_names n) (all_service_fqdns n)) ∧
    releaseDocs r n (all_configmap_names n) (all_service_fqdns n) =
      (List.range n).map (configMapDoc r) ++
      (List.range n).map (secretDoc r) ++
      (List.range n).map
        (fun i => deploymentDoc r n i (all_configmap_names n) (all_service_fqdns n)) ++
      (List.range n).map (serviceDoc r) ++
      [ingressDoc r n] ∧
    (releaseDocs r n (all_configmap_names n) (all_service_fqdns n)).length = 4 * n + 1 ∧
    (ingressPathsList r n).length = n ∧
    ∀ i : Nat, i < n → (ingressPathsList r n)[i]? =
      some ("          - path: /svc-" ++ padStr 3 i ++ "\n" ++
        "            pathType: Prefix\n" ++
        "            backend:\n" ++
        "              service:\n" ++
        "                name: " ++ relPfx r ++ "-app-" ++ padStr 3 i ++ "\n" ++
        "                port:\n" ++
        "                  number: 8080") := by
  refine ⟨rfl, rfl, ?_, ?_, ?_⟩
  · simp only [releaseDocs, List.length_append, List.length_map, List.length_range,
      List.length_singleton]
    omega
  · simp [ingressPathsList]
  · intro i hi
    simp [ingressPathsList, ingressPathEntry, List.getElem?_map, List.getElem?_range, hi]

/-- Concrete instance of `C5_release_document_structure` at `n = 1`, `r = 0`. -/
theorem C5_release_document_structure_witness :
    1 ≤ 1 ∧ 0 < 1 ∧
      (generate_release 0 1 (all_configmap_names 1) (all_service_fqdns 1) =
        String.intercalate "---\n"
          (releaseDocs 0 1 (all_configmap_names 1) (all_service_fqdns 1)) ∧
       releaseDocs 0 1 (all_configmap_names 1) (all_service_fqdns 1) =
         (List.range 1).map (configMapDoc 0) ++
         (List.range 1).map (secretDoc 0) ++
         (List.range 1).map
           (fun i => deploymentDoc 0 1 i (all_configmap_names 1) (all_service_fqdns 1)) ++
         (List.range 1).map (serviceDoc 0) ++
         [ingressDoc 0 1] ∧
       (releaseDocs 0 1 (all_configmap_names 1) (all_service_fqdns 1)).length = 4 * 1 + 1 ∧
       (ingressPathsList 0 1).length = 1 ∧
       ∀ i : Nat, i < 1 → (ingressPathsList 0 1)[i]? =
         some ("          - path: /svc-" ++ padStr 3 i ++ "\n" ++
           "            pathType: Prefix\n" ++
           "            backend:\n" ++
           "              service:\n" ++
           "                name: " ++ relPfx 0 ++ "-app-" ++ padStr 3 i ++ "\n" ++
           "                port:\n" ++
           "                  number: 8080")) :=
  ⟨by decide, by decide, C5_release_document_structure 1 0 (by decide) (by decide)⟩

/-! ### Claim C1: positional volume/mount binding -/

theorem infix_append_of_infix {α : Type} {l l₂ : List α} (l₁ : List α) (h : l <:+: l₂) :
    l <:+: l₁ ++ l₂ := by
  obtain ⟨s, t, rfl⟩ := h
  exact ⟨l₁ ++ s, t, by simp⟩

theorem volumes_block_infix_deployment (r n i : Nat) (cm_names fqdns : List String) :
    (String.intercalate "\n" (volumes_entries cm_names)).data <:+:
      (deploymentDoc r n i cm_names fqdns).data := by
  unfold deploymentDoc
  simp only [String.data_append, List.append_assoc]
  repeat first
    | exact List.IsPrefix.isInfix (List.prefix_append _ _)
    | refine infix_append_of_infix _ ?_

theorem mounts_block_infix_deployment (r n i : Nat) (cm_names fqdns : List String) :
    (String.intercalate "\n" (volume_mounts_entries cm_names)).data <:+:
      (deploymentDoc r n i cm_names fqdns).data := by
  unfold deploymentDoc
  simp only [String.data_append, List.append_assoc]
  repeat first
    | exact List.IsPrefix.isInfix (List.prefix_append _ _)
    | refine infix_append_of_infix _ ?_

/-- **C1.** For every valid `idx < n²`, the volume entry at position `idx`
of a Deployment is named `cm-{idx:04d}` and bound to the configmap name at
position `idx` of `all_configmap_names(n)`, and the volumeMount entry with
the same name mounts at `/etc/config/{idx:04d}`; both blocks occur verbatim
inside every Deployment document emitted by `generate_release`. -/
theorem C1_volume_binding (n idx : Nat) (_hn : 1 ≤ n) (hidx : idx < n * n) :
    (volumes_entries (all_configmap_names n))[idx]? =
      (all_configmap_names (n : Int))[idx]?.map (fun nm =>
        "        - name: cm-" ++ padStr 4 idx ++ "\n" ++
        "          configMap:\n" ++
        "            name: " ++ nm) ∧
    (volume_mounts_entries (all_configmap_names n))[idx]? =
      some ("            - name: cm-" ++ padStr 4 idx ++ "\n" ++
        "              mountPath: /etc/config/" ++ padStr 4 idx ++ "\n" ++
        "              readOnly: true") ∧
    ∀ r i : Nat,
      (String.intercalate "\n" (volumes_entries (all_configmap_names n))).data <:+:
        (deploymentDoc r n i (all_configmap_names n) (all_service_fqdns n)).data ∧
      (String.intercalate "\n" (volume_mounts_entries (all_configmap_names n))).data <:+:
        (deploymentDoc r n i (all_configmap_names n) (all_service_fqdns n)).data := by
  refine ⟨volumes_entries_getElem? _ idx, ?_, ?_⟩
  · exact volume_mounts_entries_getElem? _ idx (by rw [all_configmap_names_length n]; omega)
  · intro r i
    exact ⟨volumes_block_infix_deployment r n i _ _, mounts_block_infix_deployment r n i _ _⟩

/-- Concrete instance of `C1_volume_binding` at `n = 2`, `idx = 2`. -/
theorem C1_volume_binding_witness :
    1 ≤ 2 ∧ 2 < 2 * 2 ∧
      ((volumes_entries (all_configmap_names 2))[2]? =
        (all_configmap_names ((2 : Nat) : Int))[2]?.map (fun nm =>
          "        - name: cm-" ++ padStr 4 2 ++ "\n" ++
          "          configMap:\n" ++
          "            name: " ++ nm) ∧
       (volume_mounts_entries (all_configmap_names 2))[2]? =
         some ("            - name: cm-" ++ padStr 4 2 ++ "\n" ++
           "              mountPath: /etc/config/" ++ padStr 4 2 ++ "\n" ++
           "              readOnly: true") ∧
       ∀ r i : Nat,
         (String.intercalate "\n" (volumes_entries (all_configmap_names 2))).data <:+:
           (deploymentDoc r 2 i (all_configmap_names 2) (all_service_fqdns 2)).data ∧
         (String.intercalate "\n" (volume_mounts_entries (all_configmap_names 2))).data <:+:
           (deploymentDoc r 2 i (all_configmap_names 2) (all_service_fqdns 2)).data) :=
  ⟨by decide, by decide, C1_volume_binding 2 2 (by decide) (by decide)⟩
